import Mathlib

/-!
Shallow embedding of `src/voxel.py` (class `DAXMvoxel` of the DAXMAnalyzer
repository): the reference-frame rotation registry and frame conversion,
strain-free scattering-vector reconstruction, measured-vector / indexed-plane
pairing, and the two deformation-gradient solvers.

A numpy `(3, N)` column-stacked array is embedded as a `List Vec3` of its
columns; a `(3, 3)` array as `Matrix (Fin 3) (Fin 3) ℝ`.  Floating-point
arithmetic is idealised as real arithmetic.  A method that can raise is
embedded as returning the resulting state together with the raised exception
(`Option PyError` / `Except PyError`), raised exactly where the source raises.
-/

namespace DAXM

noncomputable section

open scoped Classical
open scoped Matrix

/-- A column of a numpy `(3, N)` array. -/
abbrev Vec3 := Fin 3 → ℝ

/-- A column of a numpy `(2, N)` array (detector peak coordinates). -/
abbrev Vec2 := Fin 2 → ℝ

/-- A numpy `(3, 3)` array. -/
abbrev Mat3 := Matrix (Fin 3) (Fin 3) ℝ

/-- Zero 3-vector, the out-of-range default when reading list entries. -/
def zero3 : Vec3 := ![0, 0, 0]

/-- Zero 2-vector, the out-of-range default when reading list entries. -/
def zero2 : Vec2 := ![0, 0]

/-- `np.dot(u, w)` for two 3-vectors. -/
def dotV (u w : Vec3) : ℝ := ∑ i, u i * w i

/-- Squared Euclidean norm of a column. -/
def normSq (v : Vec3) : ℝ := ∑ i, v i ^ 2

/-- `np.linalg.norm(v)` for a single column (Euclidean norm). -/
def vnorm (v : Vec3) : ℝ := Real.sqrt (normSq v)

/-- Modelled from the spec: `normalize` is imported from
`daxmexplorer.vecmath`, which is not part of `src/`; per the spec a column is
replaced "with their unit-normalized form", i.e. divided by its Euclidean
norm, and `axis=0` normalisation acts column by column. -/
def normalize (v : Vec3) : Vec3 := fun i => v i / vnorm v

/-- The exceptions the embedded methods can raise:
`nameError` is the `NameError` from the bare name `g_to_from` inside
`toFrame` — the dict is a class attribute, a Python class-body name is not in
scope inside a method body, and no module-level `g_to_from` exists, so the
very first use of the name raises; `singularMatrix` is the
`numpy.linalg.LinAlgError` raised by `np.linalg.inv` on a singular
argument. -/
inductive PyError
  | nameError
  | singularMatrix
  deriving DecidableEq

/-- Rotation by angle `θ` about the x-axis — the common shape of the
class-level rotation constants of `DAXMvoxel`. -/
def rotX (θ : ℝ) : Mat3 :=
  !![1, 0, 0; 0, Real.cos θ, -Real.sin θ; 0, Real.sin θ, Real.cos θ]

/-- `theta_1 = -np.pi` (XHF ↔ TSL). -/
def theta_1 : ℝ := -Real.pi

/-- `R_XHF2TSL`. -/
def R_XHF2TSL : Mat3 := rotX theta_1

/-- `R_TSL2XHF = R_XHF2TSL.T`. -/
def R_TSL2XHF : Mat3 := R_XHF2TSLᵀ

/-- `theta_2 = -0.25 * np.pi` (XHF ↔ APS). -/
def theta_2 : ℝ := -(0.25 : ℝ) * Real.pi

/-- `R_XHF2APS`. -/
def R_XHF2APS : Mat3 := rotX theta_2

/-- `R_APS2XHF = R_XHF2APS.T`. -/
def R_APS2XHF : Mat3 := R_XHF2APSᵀ

/-- `theta_3 = -0.75 * np.pi` (APS ↔ TSL). -/
def theta_3 : ℝ := -(0.75 : ℝ) * Real.pi

/-- `R_APS2TSL`. -/
def R_APS2TSL : Mat3 := rotX theta_3

/-- `R_TSL2APS = R_APS2TSL.T`. -/
def R_TSL2APS : Mat3 := R_APS2TSLᵀ

/-- The registered frame tags, i.e. the keys of the dict `g_to_from`. -/
def isRegistered (t : String) : Prop := t = "APS" ∨ t = "TSL" ∨ t = "XHF"

/-- The class-level dict `g_to_from`, embedded as a lookup over arbitrary
string tags; `none` models a missing key.  The self-to-self entries are
`np.eye(3)`, embedded as `1`.  Note: this class attribute exists and is
well-formed, but `toFrame` refers to it by the bare name `g_to_from`, which
is unresolvable from method scope, so the registry is never actually
consulted by the method (see `toFrame`). -/
def g_to_from (target source : String) : Option Mat3 :=
  if target = "APS" then
    if source = "APS" then some 1
    else if source = "TSL" then some R_APS2TSL
    else if source = "XHF" then some R_APS2XHF
    else none
  else if target = "TSL" then
    if source = "APS" then some R_TSL2APS
    else if source = "TSL" then some 1
    else if source = "XHF" then some R_TSL2XHF
    else none
  else if target = "XHF" then
    if source = "APS" then some R_XHF2APS
    else if source = "TSL" then some R_XHF2TSL
    else if source = "XHF" then some 1
    else none
  else none

/-- The `DAXMvoxel` record (constructor arguments of `__init__`). -/
@[ext]
structure DAXMvoxel where
  name : Option String
  ref_frame : String
  coords : Vec3
  pattern_image : Option String
  scatter_vec : List Vec3
  plane : List Vec3
  recip_base : Mat3
  peak : List Vec2
  depth : ℝ
  lattice_constant : Fin 6 → ℝ

/-- `DAXMvoxel.toFrame`.  The embedding returns the voxel state after the
call together with the exception raised, if any.  `target=None` returns at
once, touching nothing.  For every other target the first executed statement
is `if target not in g_to_from`, and the bare name `g_to_from` is a class
attribute that is not in scope inside the method body (and has no
module-level binding), so the method raises `NameError` right there — before
the intended `raise Exception` for unknown tags (dead code), before any
field assignment, and regardless of the target tag.  The rotation branch of
the source (lines 168-174) is therefore unreachable; in particular no field
is ever replaced and `self.ref_frame` is never assigned. -/
def toFrame (v : DAXMvoxel) (target : Option String) : DAXMvoxel × Option PyError :=
  match target with
  | none => (v, none)
  | some _ => (v, some PyError.nameError)

/-- The tolerance `1e-8` used by `scatter_vec0`. -/
def unitTol : ℝ := 1 / 10 ^ 8

/-- `np.absolute(np.linalg.norm(v) - 1) <= tol`: the column was recorded as a
unit direction. -/
def nearUnit (v : Vec3) (tol : ℝ) : Prop := |vnorm v - 1| ≤ tol

/-- `DAXMvoxel.scatter_vec0`: `q0 = np.dot(recip_base, plane)`, and with
`match_measured` the columns of `q0` whose measured counterpart (same column
position, via `np.where` over the measured norms) has norm within `1e-8` of
`1` are normalised.  Column counts agree by the §3 invariant; a position with
no measured counterpart is left untouched. -/
def scatter_vec0 (v : DAXMvoxel) (match_measured : Bool) : List Vec3 :=
  let q0 := v.plane.map v.recip_base.mulVec
  if match_measured then
    (List.range q0.length).map fun i =>
      let c := q0.getD i zero3
      if i < v.scatter_vec.length ∧ nearUnit (v.scatter_vec.getD i zero3) unitTol then
        normalize c
      else c
  else q0

/-- `np.argmin`: index of the first smallest entry (`0` on the empty list,
where numpy instead raises). -/
def argmin (l : List ℝ) : ℕ :=
  (List.range l.length).foldl (fun b i => if l.getD i 0 < l.getD b 0 then i else b) 0

/-- `DAXMvoxel.pair_scattervec_plane`: for each plane column `i` the dot
products of the normalised theoretical direction `q0` with all normalised
measured vectors are formed, `np.argmin` selects the paired measured column,
and the original (non-normalised) scattering vector and peak coordinate are
written to output position `i`; `scatter_vec` and `peak` are replaced. -/
def pair_scattervec_plane (v : DAXMvoxel) : DAXMvoxel :=
  let qs := v.scatter_vec.map normalize
  let pick : ℕ → ℕ := fun i =>
    let q0 := normalize (v.recip_base.mulVec (v.plane.getD i zero3))
    argmin (qs.map (dotV q0))
  { v with
      scatter_vec := (List.range v.plane.length).map fun i => v.scatter_vec.getD (pick i) zero3
    , peak := (List.range v.plane.length).map fun i => v.peak.getD (pick i) zero2 }

/-- Outer product `u · wᵀ` of two columns. -/
def outer (u w : Vec3) : Mat3 := Matrix.of fun r c => u r * w c

/-- `np.dot(X, Y.T)` for two column-stacked `(3, N)` arrays given as lists of
columns: the sum of the columnwise outer products. -/
def gram (xs ys : List Vec3) : Mat3 := ((xs.zip ys).map fun p => outer p.1 p.2).sum

/-- `A = np.dot(q, q0.T)` of `deformation_gradientL2`, with
`q0 = scatter_vec0(match_measured=True)` and `q = scatter_vec`. -/
def Amat (v : DAXMvoxel) : Mat3 := gram v.scatter_vec (scatter_vec0 v true)

/-- `B = np.dot(q0, q0.T)` of `deformation_gradientL2`. -/
def Bmat (v : DAXMvoxel) : Mat3 := gram (scatter_vec0 v true) (scatter_vec0 v true)

/-- `DAXMvoxel.deformation_gradientL2`:
`np.dot(np.linalg.inv(A).T, B.T)`, with `np.linalg.inv` raising
`LinAlgError` on a singular argument. -/
def deformation_gradientL2 (v : DAXMvoxel) : Except PyError Mat3 :=
  if (Amat v).det = 0 then Except.error PyError.singularMatrix
  else Except.ok (((Amat v)⁻¹)ᵀ * (Bmat v)ᵀ)

/-- The formula the specification asserts for the closed-form solver:
`F = (A⁻¹ · B)ᵗ`. -/
def F_L2_spec (v : DAXMvoxel) : Mat3 := ((Amat v)⁻¹ * Bmat v)ᵀ

/-- Shape of the `scipy.optimize.OptimizeResult` consumed by
`deformation_gradient_opt`: solution vector `x`, convergence flag `success`,
and last objective value (`fun` in scipy). -/
structure OptimizeResult where
  x : Fin 9 → ℝ
  success : Bool
  funValue : ℝ

/-- `x.reshape(3, 3)` for a flat 9-vector (row-major, as numpy). -/
def reshape3x3 (x : Fin 9 → ℝ) : Mat3 :=
  Matrix.of fun r c => x ⟨3 * r.val + c.val, by have := r.isLt; have := c.isLt; omega⟩

/-- The `constraint` helper of `deformation_gradient_opt`:
`len(f) * e - np.sum(np.abs(f))` with `len(f) = 9`. -/
def constraint (constraint_f : Fin 9 → ℝ) (e : ℝ) : ℝ :=
  9 * e - ∑ k, |constraint_f k|

/-- `DAXMvoxel.deformation_gradient_opt` after the `scipy.optimize.minimize`
call returns (the optimizer is an external collaborator, so its outcome
`rst_opt` is an argument of the embedding): `fstar = np.eye(3) +
rst_opt.x.reshape(3, 3)` and the return value is
`np.transpose(np.linalg.inv(fstar))`.  Only `rst_opt.x` is read — the
`success` flag and objective value are never consulted. -/
def deformation_gradient_opt (_self : DAXMvoxel) (rst_opt : OptimizeResult) :
    Except PyError Mat3 :=
  let fstar := 1 + reshape3x3 rst_opt.x
  if fstar.det = 0 then Except.error PyError.singularMatrix
  else Except.ok ((fstar⁻¹)ᵀ)

/-! ### Concrete inputs used by the witnesses and counterexamples -/

/-- A voxel filled with neutral values, specialised below. -/
def baseVoxel : DAXMvoxel :=
  { name := none
  , ref_frame := "APS"
  , coords := ![0, 0, 0]
  , pattern_image := none
  , scatter_vec := []
  , plane := []
  , recip_base := 1
  , peak := []
  , depth := 0
  , lattice_constant := fun _ => 0 }

/-- A voxel in frame XHF, the concrete input of the frame-conversion claims
(a working conversion to TSL would rotate `(0,1,0)` to `(0,-1,0)`). -/
def vxFrame : DAXMvoxel :=
  { baseVoxel with ref_frame := "XHF", coords := ![0, 1, 0]
                 , scatter_vec := [![1, 0, 0]], peak := [![0, 0]] }

/-- A voxel with one indexed plane `(1,0,0)` (theoretical direction `e₁`) and
two measured unit vectors: `e₁` itself (angle 0) and `-e₁` (angle `π`). -/
def vxPair : DAXMvoxel :=
  { baseVoxel with scatter_vec := [![1, 0, 0], ![-1, 0, 0]]
                 , plane := [![1, 0, 0]]
                 , peak := [![1, 1], ![2, 2]] }

/-- A voxel for the closed-form solver with invertible `A`: planes
`(2,0,0), (0,1,0), (0,0,1)` and measured vectors `(0,2,0), (2,0,0), (0,0,2)`
(all of norm 2, so no column is unit-matched). -/
def vxL2 : DAXMvoxel :=
  { baseVoxel with scatter_vec := [![0, 2, 0], ![2, 0, 0], ![0, 0, 2]]
                 , plane := [![2, 0, 0], ![0, 1, 0], ![0, 0, 1]]
                 , peak := [![0, 0], ![0, 0], ![0, 0]] }

/-- A voxel whose normal-equations matrix `A` is rank 1, hence singular:
one plane `(1,0,0)` and one measured vector `(2,0,0)`. -/
def vxSing : DAXMvoxel :=
  { baseVoxel with scatter_vec := [![2, 0, 0]]
                 , plane := [![1, 0, 0]]
                 , peak := [![0, 0]] }

/-- An optimizer outcome that did not converge (`success = False`) with the
initial point `x = 0` as the last iterate. -/
def rstFail : OptimizeResult := { x := fun _ => 0, success := false, funValue := 37 }

/-! ### Helper lemmas: norms and normalisation -/

/-- `normSq` on a written-out column. -/
theorem normSq_eval (a b c : ℝ) : normSq ![a, b, c] = a ^ 2 + b ^ 2 + c ^ 2 := by
  simp [normSq, Fin.sum_univ_three, Matrix.vecHead, Matrix.vecTail]

/-- The Euclidean norm from the squared norm, with the sign side condition of
the square root discharged. -/
theorem vnorm_eq {v : Vec3} {r : ℝ} (h0 : 0 ≤ r) (h : normSq v = r ^ 2) :
    vnorm v = r := by
  rw [vnorm, h, Real.sqrt_sq h0]

/-- Normalising an already-unit column is the identity. -/
theorem normalize_of_vnorm_one {v : Vec3} (h : vnorm v = 1) : normalize v = v := by
  funext i; simp [normalize, h]

/-- The near-unit test in terms of a computed norm. -/
theorem nearUnit_iff {v : Vec3} {r tol : ℝ} (h : vnorm v = r) :
    nearUnit v tol ↔ |r - 1| ≤ tol := by rw [nearUnit, h]

/-- A column of norm 2 is not within `1e-8` of unit length. -/
theorem not_nearUnit_of_vnorm_two {v : Vec3} (h : vnorm v = 2) :
    ¬ nearUnit v unitTol := by
  rw [nearUnit_iff h, unitTol]; norm_num

/-! ### Helper lemmas: the reference-frame registry -/

/-- The XHF → TSL rotation (angle `-π` about x) written out. -/
theorem rotX_theta_1_eval : rotX theta_1 = !![1, 0, 0; 0, -1, 0; 0, 0, -1] := by
  ext i j
  fin_cases i <;> fin_cases j <;>
    simp [rotX, theta_1, Matrix.vecHead, Matrix.vecTail,
      Real.cos_neg, Real.sin_neg, Real.cos_pi, Real.sin_pi]

/-- The TSL → XHF rotation written out (the transpose of an x-axis rotation by
`-π`, which is symmetric). -/
theorem R_TSL2XHF_eval : R_TSL2XHF = !![1, 0, 0; 0, -1, 0; 0, 0, -1] := by
  rw [R_TSL2XHF, R_XHF2TSL, rotX_theta_1_eval]
  ext i j
  fin_cases i <;> fin_cases j <;>
    simp [Matrix.transpose_apply, Matrix.vecHead, Matrix.vecTail]

/-- The registry entry that a working lookup for `vxFrame` → TSL would have
returned.  The entry exists and is the expected rotation; only the name
resolution in `toFrame` is broken. -/
theorem g_TSL_XHF : g_to_from "TSL" "XHF" = some R_TSL2XHF := by
  simp [g_to_from]

/-- Every self-to-self entry of the registry is the identity (`np.eye(3)`):
had `toFrame` been able to resolve `g_to_from`, a self-frame conversion
would have multiplied every field by the exact identity. -/
theorem g_self_eq_one {t : String} (h : isRegistered t) : g_to_from t t = some 1 := by
  rcases h with h | h | h <;> subst h <;> simp [g_to_from]

/-! ### Claims about the reference-frame registry -/

/-- Claim C3 (code bug): the frame conversion never happens.  `toFrame`
reads the registry through the bare name `g_to_from`, which a Python method
body cannot resolve (class attributes are not in method scope and there is no
module-level binding), so converting `vxFrame` (frame XHF) to TSL raises
`NameError` at the membership test, before any assignment: no field is
left-multiplied by `g[target][current]`, and `ref_frame` stays `"XHF"` — the
source contains no `self.ref_frame = target` assignment anywhere. -/
theorem toFrame_ref_frame_not_updated :
    toFrame vxFrame (some "TSL") = (vxFrame, some PyError.nameError) ∧
    (toFrame vxFrame (some "TSL")).1.ref_frame = "XHF" ∧
    (toFrame vxFrame (some "TSL")).1.ref_frame ≠ "TSL" :=
  ⟨rfl, rfl, by intro h; have h2 : ("XHF" : String) = "TSL" := h; simp at h2⟩

/-- Claim C5 (code bug): the frame round trip XHF → TSL → XHF never runs.
The first conversion raises `NameError` (unresolvable bare `g_to_from`) with
every field untouched, and chaining the returned state through the return
conversion raises again: the claimed completed round trip that restores the
coordinates to within `1e-12` is unreachable in the program. -/
theorem toFrame_round_trip_fails :
    (toFrame vxFrame (some "TSL")).2 = some PyError.nameError ∧
    toFrame (toFrame vxFrame (some "TSL")).1 (some "XHF") =
      (vxFrame, some PyError.nameError) :=
  ⟨rfl, rfl⟩

/-- Claim C6: requesting conversion to a tag outside the registered set
{APS, TSL, XHF} fails and leaves every field of the voxel unmodified.  In the
source the failure is the `NameError` from the unresolvable bare `g_to_from`
at the membership test — it fires before the intended `raise Exception` for
unknown tags (dead code) and before any assignment, so no mutation occurs. -/
theorem toFrame_unknown_target (v : DAXMvoxel) (t : String) (_h : ¬ isRegistered t) :
    toFrame v (some t) = (v, some PyError.nameError) :=
  rfl

/-- Witness for C6 at the concrete tag `"LAB"`. -/
theorem toFrame_unknown_target_witness :
    toFrame baseVoxel (some "LAB") = (baseVoxel, some PyError.nameError) :=
  toFrame_unknown_target baseVoxel "LAB" (by simp [isRegistered])

/-- Claim C8 (code bug): converting a voxel to its own reference frame does
fail: like every non-None target, it raises `NameError` at the membership
test on the unresolvable bare `g_to_from`.  The fields are indeed left
unchanged, but the claim also requires that the operation not fail.  (Had the
lookup worked, `g_self_eq_one` shows the self-entry is the identity and the
conversion would have been a true no-op.) -/
theorem toFrame_self_frame_raises :
    toFrame baseVoxel (some baseVoxel.ref_frame) =
      (baseVoxel, some PyError.nameError) :=
  rfl

/-- Claim C10: calling `toFrame` with `target = None` (the default) returns
silently, without raising and without modifying any field, even though `None`
is not a registered frame tag. -/
theorem toFrame_none_noop (v : DAXMvoxel) : toFrame v none = (v, none) := rfl

/-! ### Claim about the strain-free vector model -/

/-- Claim C7: `scatter_vec0` returns `q0 = recip_base · plane`; with
`match_measured` exactly those columns of `q0` whose corresponding measured
column has Euclidean norm within `1e-8` of `1` are replaced by their
unit-normalised form, and all other columns are returned unchanged.  Stated
under the §3 invariant that `plane` and `scatter_vec` have the same column
count. -/
theorem scatter_vec0_spec (v : DAXMvoxel)
    (hlen : v.plane.length = v.scatter_vec.length) :
    scatter_vec0 v false = v.plane.map v.recip_base.mulVec ∧
    (scatter_vec0 v true).length = v.plane.length ∧
    ∀ i, i < v.plane.length →
      (scatter_vec0 v true).getD i zero3 =
        (if nearUnit (v.scatter_vec.getD i zero3) unitTol then
          normalize (v.recip_base.mulVec (v.plane.getD i zero3))
        else v.recip_base.mulVec (v.plane.getD i zero3)) := by
  refine ⟨by simp [scatter_vec0], by simp [scatter_vec0], ?_⟩
  intro i hi
  have hi2 : i < v.scatter_vec.length := hlen ▸ hi
  simp only [scatter_vec0, if_true]
  rw [List.getD_eq_getElem _ _ (by simpa using hi), List.getElem_map,
    List.getElem_range]
  simp only [hi2, true_and]
  rw [List.getD_eq_getElem (v.plane.map v.recip_base.mulVec) zero3 (by simpa using hi),
    List.getElem_map, ← List.getD_eq_getElem v.plane zero3 hi]

/-- Witness for C7 at `vxSing` (one plane column, one measured column). -/
theorem scatter_vec0_spec_witness :
    vxSing.plane.length = vxSing.scatter_vec.length ∧
    scatter_vec0 vxSing false = vxSing.plane.map vxSing.recip_base.mulVec :=
  ⟨by simp [vxSing, baseVoxel],
   (scatter_vec0_spec vxSing (by simp [vxSing, baseVoxel])).1⟩

/-! ### Claim about measured-vector / indexed-plane pairing -/

/-- `‖e₁‖ = 1`. -/
theorem vnorm_e1 : vnorm ![(1 : ℝ), 0, 0] = 1 :=
  vnorm_eq zero_le_one (by rw [normSq_eval]; norm_num)

/-- `‖-e₁‖ = 1`. -/
theorem vnorm_neg_e1 : vnorm ![(-1 : ℝ), 0, 0] = 1 :=
  vnorm_eq zero_le_one (by rw [normSq_eval]; norm_num)

/-- `e₁` is already unit. -/
theorem normalize_e1 : normalize ![(1 : ℝ), 0, 0] = ![1, 0, 0] :=
  normalize_of_vnorm_one vnorm_e1

/-- `-e₁` is already unit. -/
theorem normalize_neg_e1 : normalize ![(-1 : ℝ), 0, 0] = ![-1, 0, 0] :=
  normalize_of_vnorm_one vnorm_neg_e1

/-- `dotV` on written-out columns. -/
theorem dotV_eval (a b c d e f : ℝ) :
    dotV ![a, b, c] ![d, e, f] = a * d + b * e + c * f := by
  simp [dotV, Fin.sum_univ_three, Matrix.vecHead, Matrix.vecTail]

/-- `np.argmin([1, -1]) = 1`. -/
theorem argmin_one_neg_one : argmin [(1 : ℝ), -1] = 1 := by
  norm_num [argmin, List.range_succ]

/-- Claim C1 (code bug): for `vxPair` the theoretical unit direction is `e₁`
and the measured unit vectors are `e₁` (cosine `1`, the smallest angle) and
`-e₁` (cosine `-1`, the largest angle).  `np.argmin` over the dot products
selects `-e₁` and its peak `(2,2)` — the measured vector with the *largest*
angle to `q0` — although the source's own comment says "pair q0 and qs with
the smallest angular difference". -/
theorem pairing_selects_largest_angle :
    (pair_scattervec_plane vxPair).scatter_vec = [![-1, 0, 0]] ∧
    (pair_scattervec_plane vxPair).peak = [![2, 2]] ∧
    dotV ![1, 0, 0] ![-1, 0, 0] < dotV ![1, 0, 0] ![1, 0, 0] := by
  refine ⟨?_, ?_, by norm_num [dotV_eval]⟩
  · simp only [pair_scattervec_plane, vxPair, baseVoxel]
    norm_num [List.range_succ, Matrix.one_mulVec, normalize_e1, normalize_neg_e1,
      dotV_eval, argmin_one_neg_one]
  · simp only [pair_scattervec_plane, vxPair, baseVoxel]
    norm_num [List.range_succ, Matrix.one_mulVec, normalize_e1, normalize_neg_e1,
      dotV_eval, argmin_one_neg_one]

/-! ### Claims about the closed-form deformation-gradient solver -/

/-- `‖(0,2,0)‖ = 2`. -/
theorem vnorm_col_020 : vnorm ![(0 : ℝ), 2, 0] = 2 :=
  vnorm_eq (by norm_num) (by rw [normSq_eval]; norm_num)

/-- `‖(2,0,0)‖ = 2`. -/
theorem vnorm_col_200 : vnorm ![(2 : ℝ), 0, 0] = 2 :=
  vnorm_eq (by norm_num) (by rw [normSq_eval]; norm_num)

/-- `‖(0,0,2)‖ = 2`. -/
theorem vnorm_col_002 : vnorm ![(0 : ℝ), 0, 2] = 2 :=
  vnorm_eq (by norm_num) (by rw [normSq_eval]; norm_num)

/-- No measured column of `vxL2` is near unit length, so the strain-free
vectors are the raw products `recip_base · plane`. -/
theorem scatter_vec0_vxL2 :
    scatter_vec0 vxL2 true = [![2, 0, 0], ![0, 1, 0], ![0, 0, 1]] := by
  simp [scatter_vec0, vxL2, baseVoxel, List.range_succ, Matrix.one_mulVec,
    not_nearUnit_of_vnorm_two vnorm_col_020,
    not_nearUnit_of_vnorm_two vnorm_col_200,
    not_nearUnit_of_vnorm_two vnorm_col_002]

/-- The normal-equations matrix `A = q · q0ᵀ` of `vxL2`. -/
theorem Amat_vxL2_eval : Amat vxL2 = !![0, 2, 0; 4, 0, 0; 0, 0, 2] := by
  rw [Amat, scatter_vec0_vxL2]
  ext i j
  fin_cases i <;> fin_cases j <;>
    norm_num [gram, outer, vxL2, baseVoxel, Matrix.vecHead, Matrix.vecTail]

/-- The matrix `B = q0 · q0ᵀ` of `vxL2`. -/
theorem Bmat_vxL2_eval : Bmat vxL2 = !![4, 0, 0; 0, 1, 0; 0, 0, 1] := by
  rw [Bmat, scatter_vec0_vxL2]
  ext i j
  fin_cases i <;> fin_cases j <;>
    norm_num [gram, outer, Matrix.vecHead, Matrix.vecTail]

/-- `det A = -16 ≠ 0` for `vxL2`. -/
theorem det_Amat_vxL2 : (Amat vxL2).det = -16 := by
  rw [Amat_vxL2_eval, Matrix.det_fin_three]
  norm_num [Matrix.vecHead, Matrix.vecTail]

/-- The inverse of `A` for `vxL2`, certified by a right inverse. -/
theorem Ainv_vxL2 : (Amat vxL2)⁻¹ = !![0, 1/4, 0; 1/2, 0, 0; 0, 0, 1/2] := by
  rw [Amat_vxL2_eval]
  apply Matrix.inv_eq_right_inv
  rw [Matrix.one_fin_three]
  ext i j
  fin_cases i <;> fin_cases j <;>
    norm_num [Matrix.mul_apply, Fin.sum_univ_three, Matrix.vecHead, Matrix.vecTail]

/-- What the source computes on `vxL2`: `inv(A).T @ B.T`. -/
theorem defL2_vxL2 :
    deformation_gradientL2 vxL2 = Except.ok !![0, 1/2, 0; 1, 0, 0; 0, 0, 1/2] := by
  rw [deformation_gradientL2, if_neg (by rw [det_Amat_vxL2]; norm_num),
    Ainv_vxL2, Bmat_vxL2_eval]
  congr 1
  ext i j
  fin_cases i <;> fin_cases j <;>
    norm_num [Matrix.mul_apply, Fin.sum_univ_three, Matrix.transpose_apply,
      Matrix.vecHead, Matrix.vecTail]

/-- What the specification's formula `(A⁻¹ · B)ᵗ` gives on `vxL2`. -/
theorem F_L2_spec_vxL2 :
    F_L2_spec vxL2 = !![0, 2, 0; 1/4, 0, 0; 0, 0, 1/2] := by
  rw [F_L2_spec, Ainv_vxL2, Bmat_vxL2_eval]
  ext i j
  fin_cases i <;> fin_cases j <;>
    norm_num [Matrix.mul_apply, Fin.sum_univ_three, Matrix.transpose_apply,
      Matrix.vecHead, Matrix.vecTail]

/-- Claim C2 counterexample: on the voxel `vxL2`, whose `A` is invertible
(`det A = -16`), the solver's return `inv(A).T @ B.T` has `1/2` at entry
(0,1) while the claimed formula `(A⁻¹ · B)ᵗ` has `2` there: the claim's
matrix order is wrong whenever `A⁻ᵀ` and `B` do not commute. -/
theorem deformation_gradientL2_ne_spec_formula :
    deformation_gradientL2 vxL2 ≠ Except.ok (F_L2_spec vxL2) := by
  rw [defL2_vxL2, F_L2_spec_vxL2]
  intro h
  have h2 := congrFun (congrFun (Except.ok.inj h) 0) 1
  norm_num [Matrix.vecHead, Matrix.vecTail] at h2

/-- Claim C2 as amended: for every voxel whose `A = q · q0ᵀ` is invertible,
the closed-form solver returns `F = (B · A⁻¹)ᵗ = A⁻ᵗ · Bᵗ` (matching the
source comment `F = F*^(-T) = A^-T B^T`), not `(A⁻¹ · B)ᵗ`. -/
theorem deformation_gradientL2_eq_BAinv_transpose (v : DAXMvoxel)
    (h : (Amat v).det ≠ 0) :
    deformation_gradientL2 v = Except.ok ((Bmat v * (Amat v)⁻¹)ᵀ) := by
  rw [deformation_gradientL2, if_neg h, Matrix.transpose_mul]

/-- Witness for the amended C2 at `vxL2`. -/
theorem deformation_gradientL2_eq_BAinv_transpose_witness :
    (Amat vxL2).det ≠ 0 ∧
    deformation_gradientL2 vxL2 = Except.ok ((Bmat vxL2 * (Amat vxL2)⁻¹)ᵀ) :=
  ⟨by rw [det_Amat_vxL2]; norm_num,
   deformation_gradientL2_eq_BAinv_transpose vxL2 (by rw [det_Amat_vxL2]; norm_num)⟩

/-- The single measured column of `vxSing` has norm 2, so its strain-free
vector is the raw product. -/
theorem scatter_vec0_vxSing : scatter_vec0 vxSing true = [![1, 0, 0]] := by
  simp [scatter_vec0, vxSing, baseVoxel, List.range_succ, Matrix.one_mulVec,
    not_nearUnit_of_vnorm_two vnorm_col_200]

/-- The rank-1 normal-equations matrix of `vxSing`. -/
theorem Amat_vxSing_eval : Amat vxSing = !![2, 0, 0; 0, 0, 0; 0, 0, 0] := by
  rw [Amat, scatter_vec0_vxSing]
  ext i j
  fin_cases i <;> fin_cases j <;>
    norm_num [gram, outer, vxSing, baseVoxel, Matrix.vecHead, Matrix.vecTail]

/-- `det A = 0` for `vxSing`. -/
theorem det_Amat_vxSing : (Amat vxSing).det = 0 := by
  rw [Amat_vxSing_eval, Matrix.det_fin_three]
  norm_num [Matrix.vecHead, Matrix.vecTail]

/-- Claim C9: when the normal-equations matrix `A = q · q0ᵀ` is singular,
`np.linalg.inv` raises `LinAlgError` (the spec's SingularSystem condition)
and the closed-form solver returns no matrix. -/
theorem deformation_gradientL2_singular (v : DAXMvoxel) (h : (Amat v).det = 0) :
    deformation_gradientL2 v = Except.error PyError.singularMatrix := by
  rw [deformation_gradientL2, if_pos h]

/-- Witness for C9 at `vxSing`, whose `A` has rank 1. -/
theorem deformation_gradientL2_singular_witness :
    (Amat vxSing).det = 0 ∧
    deformation_gradientL2 vxSing = Except.error PyError.singularMatrix :=
  ⟨det_Amat_vxSing, deformation_gradientL2_singular vxSing det_Amat_vxSing⟩

/-! ### Claim about the nonlinear deformation-gradient strategy -/

/-- Claim C4 (code bug): `deformation_gradient_opt` never reads the
optimizer's `success` flag.  With the non-converged outcome `rstFail`
(`success = False`, last iterate `Δ = 0`) it still returns
`F = (I + 0)⁻ᵗ = I` instead of failing with an OptimizationFailed
condition. -/
theorem deformation_gradient_opt_ignores_success :
    rstFail.success = false ∧
    deformation_gradient_opt baseVoxel rstFail = Except.ok 1 := by
  refine ⟨rfl, ?_⟩
  have hx : reshape3x3 rstFail.x = 0 := by
    ext i j; simp [reshape3x3, rstFail]
  simp only [deformation_gradient_opt, hx, add_zero]
  rw [if_neg (by simp)]
  simp

end

end DAXM
